import Mathlib

/-!
Verification of the VibeForge control service (services/control) against its
natural-language specification.

Shallow embedding, translated from the TypeScript source:
- `services/control/src/util/exec.ts`  — subprocess execution (`execCommand`, `execCdk`)
- `services/control/src/deploy.ts`     — `needsNpmInstall`, `deployCdkStack`,
  `bootstrapCdk`, `destroyCdkStack`
- `services/control/src/index.ts`      — the Express route table and the
  `/api/generate` and `/api/destroy` handlers
- the in-memory `StatusTracker` module — `createJob`, `addUpdate`,
  `completeJob`, `failJob`, `getStatus`, `cleanup`

External effects (role assumption, file system, subprocess outcomes, S3) are
supplied as explicit "world" records of `Except`-valued outcomes; the embedded
functions consume them in the same order and with the same checks as the
source. The md5 content hash is an abstract parameter `hash : String → String`.
Timestamps are `Nat` milliseconds.
-/

/-- JavaScript string-or (`a || b`) on strings: the empty string is falsy. -/
def jsOrStr (a b : String) : String :=
  if a == "" then b else a

/-- JavaScript truthiness of `string | undefined`. -/
def optTruthy (a : Option String) : Bool :=
  match a with
  | some s => s != ""
  | none => false

/-- JavaScript `a || b` on `string | undefined` values. -/
def jsOrO (a b : Option String) : Option String :=
  if optTruthy a then a else b

/-- JavaScript `a || d` coercing `string | undefined` into a string. -/
def jsOrOptStr (a : Option String) (d : String) : String :=
  match a with
  | some s => if s == "" then d else s
  | none => d

/-- Does `pat` occur at the head of the character list? -/
def charsStartWith : List Char → List Char → Bool
  | [], _ => true
  | _ :: _, [] => false
  | a :: as, b :: bs => a == b && charsStartWith as bs

/-- Does `pat` occur anywhere in the character list? -/
def charsContain (pat : List Char) : List Char → Bool
  | [] => charsStartWith pat []
  | c :: cs => charsStartWith pat (c :: cs) || charsContain pat cs

/-- `s.includes(pat)` from JavaScript. -/
def strContains (s pat : String) : Bool :=
  charsContain pat.data s.data

/-- Result of one subprocess (`ExecResult` in util/exec.ts). -/
structure ExecResult where
  stdout : String
  stderr : String
  exitCode : Int
  deriving DecidableEq

/-- How the promise inside `execCommand` settles first: the child's `close`
event (whose code is `null` when the child was killed by a signal, including
the kill issued by the timeout handler), the `error` event, or the separately
scheduled timeout rejection. Exactly one of these wins the race. -/
inductive ProcSettle
  | close (code : Option Int)
  | errored (msg : String)
  | timedOut (ms : Nat)

/-- `code || 0` from the `close` handler in `execCommand`: a `null` exit code
is coerced to 0. -/
def jsOrExitCode (code : Option Int) : Int :=
  match code with
  | none => 0
  | some c => if c = 0 then 0 else c

/-- `execCommand` (util/exec.ts lines 43-62): resolution of the returned
promise as a function of the winning event. -/
def execCommandResolve (stdout stderr : String) : ProcSettle → Except String ExecResult
  | .close code => .ok { stdout := stdout, stderr := stderr, exitCode := jsOrExitCode code }
  | .errored msg => .error msg
  | .timedOut ms => .error ("Command timed out after " ++ toString ms ++ "ms")

/-- One subprocess invocation with its working directory and effective
timeout, as recorded by the pipeline trace. -/
structure Invocation where
  cmd : String
  args : List String
  cwd : String
  timeout : Option Nat
  deriving DecidableEq

/-- The timeout `execCdk` actually passes on: `options.timeout || 600000`
(10-minute default when the caller supplies none). -/
def execCdkTimeout (t : Option Nat) : Nat :=
  match t with
  | none => 600000
  | some v => if v = 0 then 600000 else v

/-- An `execCdk` invocation: `npx cdk <args>` with the effective timeout. -/
def execCdkInv (args : List String) (cwd : String) (t : Option Nat) : Invocation :=
  { cmd := "npx", args := "cdk" :: args, cwd := cwd, timeout := some (execCdkTimeout t) }

/-- `npm install` in `cwd`, 5-minute timeout (deploy.ts install stage). -/
def npmInstallInv (cwd : String) : Invocation :=
  { cmd := "npm", args := ["install"], cwd := cwd, timeout := some 300000 }

/-- `npm run build` in `cwd`, 5-minute timeout (deploy.ts build stage). -/
def npmBuildInv (cwd : String) : Invocation :=
  { cmd := "npm", args := ["run", "build"], cwd := cwd, timeout := some 300000 }

/-- `cdk bootstrap`, explicit 5-minute timeout (deploy.ts `bootstrapCdk`). -/
def bootstrapInv (cwd : String) : Invocation :=
  execCdkInv ["bootstrap"] cwd (some 300000)

/-- `cdk synth <stack>`: no explicit timeout at the call site, so `execCdk`
applies its 10-minute default. -/
def synthInv (stackName cwd : String) : Invocation :=
  execCdkInv ["synth", stackName] cwd none

/-- `cdk deploy <stack> --require-approval never --outputs-file outputs.json`,
explicit 15-minute timeout. -/
def cdkDeployInv (stackName cwd : String) : Invocation :=
  execCdkInv ["deploy", stackName, "--require-approval", "never", "--outputs-file", "outputs.json"]
    cwd (some 900000)

/-- `cdk destroy <stack> --force`, explicit 10-minute timeout. -/
def cdkDestroyInv (stackName cwd : String) : Invocation :=
  execCdkInv ["destroy", stackName, "--force"] cwd (some 600000)

/-- `bootstrapCdk`'s treatment of the subprocess result (deploy.ts lines
267-276): a non-zero exit whose stderr or stdout contains the
"already bootstrapped" pattern is success; any other non-zero exit raises
carrying `stderr || stdout`. -/
def bootstrapCdk (r : ExecResult) : Except String Unit :=
  if r.exitCode != 0 then
    if strContains r.stderr "already bootstrapped" || strContains r.stdout "already bootstrapped" then
      .ok ()
    else
      .error ("CDK bootstrap failed: " ++ jsOrStr r.stderr r.stdout)
  else
    .ok ()

/-- JavaScript `String.prototype.trim`: strip whitespace from both ends
(`String.trim` from the Lean core library does not reduce in the kernel, so
the model carries its own character-list implementation). -/
def trimChars (l : List Char) : List Char :=
  ((l.dropWhile Char.isWhitespace).reverse.dropWhile Char.isWhitespace).reverse

/-- `s.trim()`. -/
def strTrim (s : String) : String := String.mk (trimChars s.data)

/-- The slice of the file system `needsNpmInstall` consults for one
sub-project: node_modules presence, package.json presence and content, and
the `.package-hash` marker file. -/
structure FS where
  nodeModulesExists : Bool
  packageJsonExists : Bool
  packageJsonContent : String
  hashFileExists : Bool
  hashFileContent : String
  deriving DecidableEq

/-- `needsNpmInstall` (deploy.ts lines 15-46). Returns the decision and the
file system after the call. Note that when an install is deemed needed while
node_modules exists, the new hash is written *here*, before any install runs;
when node_modules is missing the function returns true without touching the
hash file. -/
def needsNpmInstall (hash : String → String) (fs : FS) : Bool × FS :=
  if fs.nodeModulesExists = false then (true, fs)
  else if fs.packageJsonExists = false then (false, fs)
  else if fs.hashFileExists && (strTrim fs.hashFileContent == hash fs.packageJsonContent) then
    (false, fs)
  else
    (true, { fs with hashFileExists := true, hashFileContent := hash fs.packageJsonContent })

/-- The well-known keys read from the deploy stage's outputs file. -/
structure StackOutputs where
  ApiUrl : Option String
  ApiEndpoint4F160690 : Option String
  WebBucketName : Option String
  PreviewUrl : Option String
  ProdUrl : Option String
  deriving DecidableEq

/-- `{}`: every well-known key absent. -/
def emptyOutputs : StackOutputs :=
  { ApiUrl := none, ApiEndpoint4F160690 := none, WebBucketName := none,
    PreviewUrl := none, ProdUrl := none }

/-- The `Environment` enum from the shared package. -/
inductive Environment
  | dev
  | prod
  deriving DecidableEq

/-- `environment === Environment.DEV ? 'Dev' : 'Prod'` suffix. -/
def mkStackName (appName : String) (environment : Environment) : String :=
  appName ++ "-" ++ (match environment with | .dev => "Dev" | .prod => "Prod")

/-- The string value of the enum (`'dev'` / `'prod'`). -/
def envString : Environment → String
  | .dev => "dev"
  | .prod => "prod"

/-- `path.join(WORK_DIR, appId, 'infra')`. -/
def infraPathOf (appId : String) : String := "/work/" ++ appId ++ "/infra"

/-- `path.join(WORK_DIR, appId, 'web')`. -/
def webPathOf (appId : String) : String := "/work/" ++ appId ++ "/web"

/-- `status: 'success' | 'failed'` of a `DeploymentResult`. -/
inductive DeployStatus
  | success
  | failed
  deriving DecidableEq

/-- `DeploymentResult` from the shared package. -/
structure DeploymentResult where
  stackName : String
  environment : Environment
  outputs : StackOutputs
  previewUrl : Option String
  prodUrl : Option String
  status : DeployStatus
  error : Option String
  deriving DecidableEq

/-- The runtime `config.json` object uploaded to the web bucket. -/
structure ConfigWrite where
  apiUrl : Option String
  environment : Environment
  deriving DecidableEq

/-- Observable trace of one `deployCdkStack` run: status-callback emissions
(the `onStatus` calls, recorded whether or not a callback was supplied),
subprocess invocations in launch order, runtime-config uploads, and the
final file-system state of the two sub-projects. -/
structure RunTrace where
  statusUpdates : List (String × String)
  invocations : List Invocation
  configWrites : List ConfigWrite
  infraFsAfter : FS
  webFsAfter : FS
  deriving DecidableEq

/-- Outcomes of the external effects of one `deployCdkStack` run, in program
order. Each `Except` is the settlement of the corresponding awaited call
(`.error` = the promise rejected / the call threw). -/
structure PipelineWorld where
  assumeRoleOutcome : Except String Unit
  infraFs : FS
  webFs : FS
  infraInstall : Except String ExecResult
  webInstall : Except String ExecResult
  bootstrap : Except String ExecResult
  webBuild : Except String ExecResult
  synth : Except String ExecResult
  deploy : Except String ExecResult
  outputsRead : Except String (List (String × StackOutputs))
  s3Put : Except String Unit

/-- `Promise.all` over a pair: a rejection of either promise rejects the
joint await (both subprocesses still run; there is no cancellation of the
sibling). When both reject, the real race is decided by timing; this model
deterministically reports the first slot's rejection. -/
def promiseAllPair (a b : Except String ExecResult) : Except String (ExecResult × ExecResult) :=
  match a, b with
  | .error e, _ => .error e
  | _, .error e => .error e
  | .ok x, .ok y => .ok (x, y)

/-- The promise awaited for one sub-project's install: the real `npm install`
outcome when an install is needed, else the pre-resolved stub
`{exitCode: 0, stdout: '', stderr: ''}` pushed in its place. -/
def awaitedInstall (needed : Bool) (outcome : Except String ExecResult) : Except String ExecResult :=
  if needed then outcome else .ok { stdout := "", stderr := "", exitCode := 0 }

def suChecking : String × String := ("deploy-install", "Checking dependencies")

def suInstalling : String × String := ("deploy-install", "Installing dependencies")

def suBootstrap : String × String := ("deploy-bootstrap", "Bootstrapping AWS CDK (first time only)")

def suBuild : String × String := ("deploy-build", "Building web app and synthesizing CDK")

def suDeploy : String × String := ("deploy-cdk", "Deploying infrastructure with CloudFormation")

def suConfig : String × String := ("deploy-config", "Uploading runtime configuration")

/-- The second install-stage status emission, present only when at least one
sub-project needs an install. -/
def installingSegment (needInfra needWeb : Bool) : List (String × String) :=
  if needInfra || needWeb then [suInstalling] else []

/-- The install invocations actually launched. -/
def installSegment (needInfra needWeb : Bool) (infraPath webPath : String) : List Invocation :=
  (if needInfra then [npmInstallInv infraPath] else []) ++
  (if needWeb then [npmInstallInv webPath] else [])

/-- The body of `deployCdkStack`'s `try` block (deploy.ts lines 66-237),
stage by stage: role assumption, dependency resolution, bootstrap,
build + synth, deploy, output extraction, runtime-config publication.
Returns the extracted outputs on success or the first failure, together with
the run's observable trace. -/
def runPipeline (hash : String → String) (stackName infraPath webPath : String)
    (environment : Environment) (w : PipelineWorld) : Except String StackOutputs × RunTrace :=
  match w.assumeRoleOutcome with
  | .error e => (.error e, ⟨[], [], [], w.infraFs, w.webFs⟩)
  | .ok _ =>
    let ni := needsNpmInstall hash w.infraFs
    let nw := needsNpmInstall hash w.webFs
    let su1 := suChecking :: installingSegment ni.1 nw.1
    let invs1 := installSegment ni.1 nw.1 infraPath webPath
    match promiseAllPair (awaitedInstall ni.1 w.infraInstall) (awaitedInstall nw.1 w.webInstall) with
    | .error e => (.error e, ⟨su1, invs1, [], ni.2, nw.2⟩)
    | .ok p =>
      if p.1.exitCode != 0 then
        (.error ("Infra npm install failed: " ++ p.1.stderr), ⟨su1, invs1, [], ni.2, nw.2⟩)
      else if p.2.exitCode != 0 then
        (.error ("Web npm install failed: " ++ p.2.stderr), ⟨su1, invs1, [], ni.2, nw.2⟩)
      else
        let su2 := su1 ++ [suBootstrap]
        let invs2 := invs1 ++ [bootstrapInv infraPath]
        match w.bootstrap with
        | .error e => (.error e, ⟨su2, invs2, [], ni.2, nw.2⟩)
        | .ok rb =>
          match bootstrapCdk rb with
          | .error e => (.error e, ⟨su2, invs2, [], ni.2, nw.2⟩)
          | .ok _ =>
            let su3 := su2 ++ [suBuild]
            let invs3 := invs2 ++ [npmBuildInv webPath, synthInv stackName infraPath]
            match promiseAllPair w.webBuild w.synth with
            | .error e => (.error e, ⟨su3, invs3, [], ni.2, nw.2⟩)
            | .ok q =>
              if q.1.exitCode != 0 then
                (.error ("Web build failed: " ++ q.1.stderr), ⟨su3, invs3, [], ni.2, nw.2⟩)
              else if q.2.exitCode != 0 then
                (.error ("CDK synth failed: " ++ q.2.stderr), ⟨su3, invs3, [], ni.2, nw.2⟩)
              else
                let su4 := su3 ++ [suDeploy]
                let invs4 := invs3 ++ [cdkDeployInv stackName infraPath]
                match w.deploy with
                | .error e => (.error e, ⟨su4, invs4, [], ni.2, nw.2⟩)
                | .ok rd =>
                  if rd.exitCode != 0 then
                    (.error ("CDK deploy failed: " ++ rd.stderr), ⟨su4, invs4, [], ni.2, nw.2⟩)
                  else
                    match w.outputsRead with
                    | .error e => (.error e, ⟨su4, invs4, [], ni.2, nw.2⟩)
                    | .ok data =>
                      let outs := (List.lookup stackName data).getD emptyOutputs
                      let su5 := su4 ++ [suConfig]
                      if optTruthy outs.WebBucketName then
                        match w.s3Put with
                        | .error e => (.error e, ⟨su5, invs4, [], ni.2, nw.2⟩)
                        | .ok _ =>
                          (.ok outs,
                           ⟨su5, invs4, [⟨jsOrO outs.ApiUrl outs.ApiEndpoint4F160690, environment⟩],
                            ni.2, nw.2⟩)
                      else
                        (.ok outs, ⟨su5, invs4, [], ni.2, nw.2⟩)

/-- `deployCdkStack` (deploy.ts lines 51-249): run the pipeline and catch —
any stage failure yields `{status: 'failed', error, outputs: {}}`; success
yields `{status: 'success', outputs, previewUrl, prodUrl}`. -/
def deployCdkStack (hash : String → String) (appId appName : String)
    (environment : Environment) (w : PipelineWorld) : DeploymentResult × RunTrace :=
  match runPipeline hash (mkStackName appName environment) (infraPathOf appId) (webPathOf appId)
      environment w with
  | (.ok outs, tr) =>
      ({ stackName := mkStackName appName environment, environment := environment,
         outputs := outs, previewUrl := outs.PreviewUrl, prodUrl := outs.ProdUrl,
         status := .success, error := none }, tr)
  | (.error msg, tr) =>
      ({ stackName := mkStackName appName environment, environment := environment,
         outputs := emptyOutputs, previewUrl := none, prodUrl := none,
         status := .failed, error := some msg }, tr)

/-- Did the `Except` settle successfully? -/
def exceptOkB {α : Type} : Except String α → Bool
  | .ok _ => true
  | .error _ => false

def assumeOkB (w : PipelineWorld) : Bool := exceptOkB w.assumeRoleOutcome

/-- The install stage passes: the joint await resolves and both (real or
stubbed) results exit zero. -/
def installStageOkB (hash : String → String) (w : PipelineWorld) : Bool :=
  match promiseAllPair (awaitedInstall (needsNpmInstall hash w.infraFs).1 w.infraInstall)
      (awaitedInstall (needsNpmInstall hash w.webFs).1 w.webInstall) with
  | .ok p => (p.1.exitCode == 0) && (p.2.exitCode == 0)
  | .error _ => false

/-- The bootstrap stage passes: the subprocess call resolves and
`bootstrapCdk` accepts its result. -/
def bootstrapStageOkB (w : PipelineWorld) : Bool :=
  match w.bootstrap with
  | .ok r => exceptOkB (bootstrapCdk r)
  | .error _ => false

/-- The build + synthesize stage passes: the joint await resolves and both
results exit zero. -/
def buildSynthStageOkB (w : PipelineWorld) : Bool :=
  match promiseAllPair w.webBuild w.synth with
  | .ok q => (q.1.exitCode == 0) && (q.2.exitCode == 0)
  | .error _ => false

/-- The deploy stage passes. -/
def deployStageOkB (w : PipelineWorld) : Bool :=
  match w.deploy with
  | .ok r => r.exitCode == 0
  | .error _ => false

def outputsReadOkB (w : PipelineWorld) : Bool := exceptOkB w.outputsRead

def s3OkB (w : PipelineWorld) : Bool := exceptOkB w.s3Put

/-- The outputs value extracted after a successful read
(`outputsData[stackName] || {}`). -/
def extractedOuts (w : PipelineWorld) (stackName : String) : StackOutputs :=
  match w.outputsRead with
  | .ok data => (List.lookup stackName data).getD emptyOutputs
  | .error _ => emptyOutputs

/-- Guard-form description of the invocation list: each stage's subprocesses
are launched exactly when every earlier stage passed. -/
def pipelineInvs (hash : String → String) (stackName infraPath webPath : String)
    (w : PipelineWorld) : List Invocation :=
  if assumeOkB w then
    installSegment (needsNpmInstall hash w.infraFs).1 (needsNpmInstall hash w.webFs).1
        infraPath webPath ++
    (if installStageOkB hash w then
      bootstrapInv infraPath ::
      (if bootstrapStageOkB w then
        npmBuildInv webPath :: synthInv stackName infraPath ::
        (if buildSynthStageOkB w then [cdkDeployInv stackName infraPath] else [])
      else [])
    else [])
  else []

/-- Guard-form description of the status-callback emissions. -/
def pipelineStatus (hash : String → String) (w : PipelineWorld) : List (String × String) :=
  if assumeOkB w then
    suChecking ::
    (installingSegment (needsNpmInstall hash w.infraFs).1 (needsNpmInstall hash w.webFs).1 ++
     (if installStageOkB hash w then
       suBootstrap ::
       (if bootstrapStageOkB w then
         suBuild ::
         (if buildSynthStageOkB w then
           suDeploy :: (if deployStageOkB w && outputsReadOkB w then [suConfig] else [])
         else [])
       else [])
     else []))
  else []

/-- Guard-form description of the runtime-config uploads. -/
def pipelineConfigWrites (hash : String → String) (stackName : String)
    (environment : Environment) (w : PipelineWorld) : List ConfigWrite :=
  if assumeOkB w && installStageOkB hash w && bootstrapStageOkB w && buildSynthStageOkB w &&
      deployStageOkB w && outputsReadOkB w &&
      optTruthy (extractedOuts w stackName).WebBucketName && s3OkB w then
    [⟨jsOrO (extractedOuts w stackName).ApiUrl (extractedOuts w stackName).ApiEndpoint4F160690,
      environment⟩]
  else []

/-- File system of the infra sub-project after the run. -/
def fsAfterInfra (hash : String → String) (w : PipelineWorld) : FS :=
  if assumeOkB w then (needsNpmInstall hash w.infraFs).2 else w.infraFs

/-- File system of the web sub-project after the run. -/
def fsAfterWeb (hash : String → String) (w : PipelineWorld) : FS :=
  if assumeOkB w then (needsNpmInstall hash w.webFs).2 else w.webFs

/-- Decidable equality for `Except`, needed to evaluate handler results on
concrete inputs. -/
instance exceptDecEq {α β : Type} [DecidableEq α] [DecidableEq β] : DecidableEq (Except α β) :=
  fun x y =>
    match x, y with
    | .error a, .error b =>
        decidable_of_iff (a = b) ⟨fun h => by rw [h], fun h => by cases h; rfl⟩
    | .error _, .ok _ => isFalse (fun h => Except.noConfusion h)
    | .ok _, .error _ => isFalse (fun h => Except.noConfusion h)
    | .ok a, .ok b =>
        decidable_of_iff (a = b) ⟨fun h => by rw [h], fun h => by cases h; rfl⟩

/-- One character of the app-name sanitizer: the first regex replace maps
every character outside a-z, A-Z, 0-9 and hyphen to a hyphen. -/
def sanitizeChar (c : Char) : Char :=
  if c.isAlpha || c.isDigit || c == '-' then c else '-'

/-- One step of collapsing consecutive hyphens (the second regex replace,
which rewrites every run of hyphens to a single hyphen), consumed right to
left. -/
def collapseStep (c : Char) (acc : List Char) : List Char :=
  match acc with
  | '-' :: _ => if c == '-' then acc else c :: acc
  | _ => c :: acc

/-- Collapse every run of consecutive hyphens to a single hyphen. -/
def collapseDashes (l : List Char) : List Char :=
  l.foldr collapseStep []

/-- The third regex replace: strip leading and trailing hyphens. -/
def stripDashes (l : List Char) : List Char :=
  ((l.dropWhile (fun c => c == '-')).reverse.dropWhile (fun c => c == '-')).reverse

/-- App-name sanitization for CloudFormation (index.ts lines 125-128). -/
def sanitizeAppName (s : String) : String :=
  String.mk (stripDashes (collapseDashes (s.data.map sanitizeChar)))

/-- Per-environment deployment entries of a manifest. -/
structure Deployments where
  dev : Option DeploymentResult
  prod : Option DeploymentResult
  deriving DecidableEq

/-- `AppManifest` from the shared package (fields the handlers touch). -/
structure AppManifest where
  appId : String
  appName : String
  blueprint : String
  createdAt : String
  updatedAt : String
  deployments : Deployments
  deriving DecidableEq

/-- The success body of `POST /api/generate` (`GenerateResponse`): the
deployment's preview URL, stack name and raw outputs — no job id. -/
structure GenerateResponse where
  appId : String
  spec : String
  previewUrl : String
  stackName : String
  outputs : StackOutputs
  deriving DecidableEq

/-- Outcomes of the external effects of one `/api/generate` request, in
program order: input validation, tenant-config read, role assumption, spec
generation, repository rendering, the deploy pipeline, and the manifest
read that precedes the manifest write. -/
structure GenerateWorld where
  validation : Except String Unit
  tenant : Except String Unit
  assumeRoleOutcome : Except String Unit
  specGen : Except String String
  render : Except String Unit
  pipeline : PipelineWorld
  manifestRead : Except String AppManifest

/-- The `/api/generate` handler (index.ts lines 119-197): fully synchronous —
it validates, assumes the role, generates the spec, renders the repository,
runs the dev deploy to completion, throws when the deployment failed (writing
nothing), and otherwise writes the manifest's dev entry and responds with the
deployment result itself. Returns the HTTP outcome and the manifest written
(`none` when no write happened). -/
def generateHandler (hash : String → String) (appId appName now : String)
    (gw : GenerateWorld) : Except String GenerateResponse × Option AppManifest :=
  match gw.validation with
  | .error e => (.error e, none)
  | .ok _ =>
  match gw.tenant with
  | .error e => (.error e, none)
  | .ok _ =>
  match gw.assumeRoleOutcome with
  | .error e => (.error e, none)
  | .ok _ =>
  match gw.specGen with
  | .error e => (.error e, none)
  | .ok spec =>
  match gw.render with
  | .error e => (.error e, none)
  | .ok _ =>
    match deployCdkStack hash appId (sanitizeAppName appName) .dev gw.pipeline with
    | (deployment, _) =>
      if deployment.status = .failed then
        (.error (jsOrOptStr deployment.error "Deployment failed"), none)
      else
        match gw.manifestRead with
        | .error e => (.error e, none)
        | .ok m =>
          let m1 : AppManifest :=
            { m with updatedAt := now,
                     deployments := { m.deployments with dev := some deployment } }
          (.ok { appId := appId, spec := spec,
                 previewUrl := jsOrOptStr deployment.previewUrl "",
                 stackName := deployment.stackName, outputs := deployment.outputs },
           some m1)

/-- The full route table registered in index.ts: method and path of every
endpoint the Express app serves. -/
def controlRoutes : List (String × String) :=
  [("GET", "/api/health"), ("GET", "/api/init"), ("GET", "/api/connect-url"),
   ("POST", "/api/check"), ("POST", "/api/generate"), ("POST", "/api/publish"),
   ("GET", "/api/apps"), ("POST", "/api/destroy")]

/-- Outcomes of the external effects of one `/api/destroy` request, in
program order. -/
structure DestroyWorld where
  validation : Except String Unit
  manifestFileExists : Bool
  manifestRead : Except String AppManifest
  tenant : Except String Unit
  assumeRoleOutcome : Except String Unit
  destroyExec : Except String ExecResult

/-- `destroyCdkStack` (deploy.ts lines 288-335): assume the role, then spawn
`cdk destroy <stack> --force` (10-minute timeout); non-zero exit raises.
Also returns the list of subprocesses spawned. -/
def destroyCdkStack (appName : String) (environment : Environment) (infraPath : String)
    (w : DestroyWorld) : Except String Unit × List Invocation :=
  match w.assumeRoleOutcome with
  | .error e => (.error e, [])
  | .ok _ =>
    match w.destroyExec with
    | .error e => (.error e, [cdkDestroyInv (mkStackName appName environment) infraPath])
    | .ok r =>
      if r.exitCode != 0 then
        (.error ("CDK destroy failed: " ++ r.stderr),
         [cdkDestroyInv (mkStackName appName environment) infraPath])
      else
        (.ok (), [cdkDestroyInv (mkStackName appName environment) infraPath])

/-- The `/api/destroy` handler (index.ts lines 294-346): validate, require
the manifest *file* to exist ('App not found' otherwise), read it, then call
`destroyCdkStack` unconditionally — the handler never checks whether the
manifest has a deployment entry for the requested environment. On success it
deletes that entry and rewrites the manifest. Returns the HTTP outcome, the
subprocesses spawned, and the manifest written (`none` when no write). -/
def destroyHandler (env : Environment) (appId now : String) (w : DestroyWorld) :
    Except String String × List Invocation × Option AppManifest :=
  match w.validation with
  | .error e => (.error e, [], none)
  | .ok _ =>
  if w.manifestFileExists = false then (.error "App not found", [], none)
  else
    match w.manifestRead with
    | .error e => (.error e, [], none)
    | .ok m =>
    match w.tenant with
    | .error e => (.error e, [], none)
    | .ok _ =>
      match destroyCdkStack (sanitizeAppName m.appName) env (infraPathOf appId) w with
      | (.error e, invs) => (.error e, invs, none)
      | (.ok _, invs) =>
        let m1 :=
          match env with
          | .dev => { m with deployments := { m.deployments with dev := none } }
          | .prod => { m with deployments := { m.deployments with prod := none } }
        (.ok (envString env ++ " stack destroyed successfully"), invs,
         some { m1 with updatedAt := now })

/-- `status: 'in_progress' | 'completed' | 'failed'` of a `JobStatus`. -/
inductive JobState
  | inProgress
  | completed
  | failed
  deriving DecidableEq

/-- One progress event in a job's log (`StatusUpdate`). -/
structure StatusUpdate where
  step : String
  message : String
  timestamp : Nat
  completed : Bool
  deriving DecidableEq

/-- One tracked job (`JobStatus`). -/
structure JobStatus where
  jobId : String
  status : JobState
  updates : List StatusUpdate
  result : Option String
  error : Option String
  deriving DecidableEq

/-- The tracker's `Map<string, JobStatus>`. -/
def JobsMap : Type := String → Option JobStatus

def emptyJobs : JobsMap := fun _ => none

/-- `Map.set`. -/
def jmapSet (m : JobsMap) (k : String) (v : JobStatus) : JobsMap :=
  fun q => if q = k then some v else m q

/-- `createJob` (status tracker lines 23-29): unconditionally installs a
fresh in-progress entry with an empty log. -/
def createJob (m : JobsMap) (jobId : String) : JobsMap :=
  jmapSet m jobId
    { jobId := jobId, status := .inProgress, updates := [], result := none, error := none }

/-- `addUpdate` (lines 31-41): appends an update to a known job's log —
regardless of the job's status; a no-op for an unknown job. -/
def addUpdate (m : JobsMap) (jobId step message : String) (completed : Bool) (now : Nat) :
    JobsMap :=
  match m jobId with
  | none => m
  | some job =>
      jmapSet m jobId
        { job with updates := job.updates ++
            [{ step := step, message := message, timestamp := now, completed := completed }] }

/-- `completeJob` (lines 43-49): sets status to completed and stores the
result — regardless of the job's current status; a no-op for an unknown job. -/
def completeJob (m : JobsMap) (jobId result : String) : JobsMap :=
  match m jobId with
  | none => m
  | some job => jmapSet m jobId { job with status := .completed, result := some result }

/-- `failJob` (lines 51-57): sets status to failed and stores the error —
regardless of the job's current status; a no-op for an unknown job. -/
def failJob (m : JobsMap) (jobId error : String) : JobsMap :=
  match m jobId with
  | none => m
  | some job => jmapSet m jobId { job with status := .failed, error := some error }

/-- `getStatus` (lines 59-61). -/
def getStatus (m : JobsMap) (jobId : String) : Option JobStatus :=
  m jobId

/-- Tracker state with the pending `setTimeout` deletions scheduled by
`cleanup`. -/
structure TrackerState where
  jobs : JobsMap
  timers : List (String × Nat)

/-- `cleanup` (lines 63-68): schedule deletion of the entry 3600000 ms
(one hour) from now. -/
def cleanup (s : TrackerState) (jobId : String) (now : Nat) : TrackerState :=
  { s with timers := s.timers ++ [(jobId, now + 3600000)] }

/-- Advance the clock to time `t`: every scheduled deletion whose fire time
has been reached deletes its entry from the map. -/
def fireTimers (s : TrackerState) (t : Nat) : TrackerState :=
  { jobs := fun k =>
      if s.timers.any (fun p => p.1 == k && decide (p.2 ≤ t)) then none else s.jobs k,
    timers := s.timers.filter (fun p => !(decide (p.2 ≤ t))) }

/-- Modelled from the spec: the asynchronous generate-job driver that marks a
job terminal and then schedules its reclamation is not under src — the
tracker's `cleanup` method has no caller there (the synchronous
`/api/generate` handler in index.ts never touches the tracker, while the UI
polls a job id, so the driver exists outside the captured sources). Per the
spec: "once terminal, an entry is scheduled for removal after a fixed window
(on the order of one hour)". This composes the source-translated
`completeJob` and `cleanup` at the moment the job becomes terminal. -/
def finishJobCompleted (s : TrackerState) (jobId result : String) (now : Nat) : TrackerState :=
  cleanup { s with jobs := completeJob s.jobs jobId result } jobId now

/-- The identity function standing in for the md5 hex digest in concrete
examples (the pipeline only ever compares hashes for equality). -/
def idHash : String → String := fun s => s

/-- A subprocess that exits 0 with empty output. -/
def okExec : Except String ExecResult :=
  .ok { stdout := "", stderr := "", exitCode := 0 }

/-- A sub-project whose dependency manifest is unchanged: node_modules is
materialized and the stored hash equals the current content hash (under
`idHash`). -/
def fsUnchanged : FS :=
  { nodeModulesExists := true, packageJsonExists := true, packageJsonContent := "pkg",
    hashFileExists := true, hashFileContent := "pkg" }

/-- Outputs of a fully successful deploy. -/
def goodOutputs : StackOutputs :=
  { ApiUrl := some "https://api.example", ApiEndpoint4F160690 := none,
    WebBucketName := some "web-bucket", PreviewUrl := some "https://preview.example",
    ProdUrl := none }

/-- A pipeline world in which every stage succeeds (for app `app-1` named
`my-app`, dev environment). -/
def happyPipeline : PipelineWorld :=
  { assumeRoleOutcome := .ok (), infraFs := fsUnchanged, webFs := fsUnchanged,
    infraInstall := okExec, webInstall := okExec, bootstrap := okExec,
    webBuild := okExec, synth := okExec, deploy := okExec,
    outputsRead := .ok [("my-app-Dev", goodOutputs)], s3Put := .ok () }

/-- A manifest with no deployments yet. -/
def baseManifest : AppManifest :=
  { appId := "app-1", appName := "my-app", blueprint := "serverless",
    createdAt := "t0", updatedAt := "t0", deployments := { dev := none, prod := none } }

/-- A fully successful `/api/generate` request world. -/
def happyGenerate : GenerateWorld :=
  { validation := .ok (), tenant := .ok (), assumeRoleOutcome := .ok (),
    specGen := .ok "spec-json", render := .ok (), pipeline := happyPipeline,
    manifestRead := .ok baseManifest }

/-- A pipeline world whose bootstrap subprocess fails without the
already-bootstrapped pattern. -/
def bootFailPipeline : PipelineWorld :=
  { happyPipeline with bootstrap := .ok { stdout := "", stderr := "boom", exitCode := 1 } }

/-- A `/api/generate` world whose deploy pipeline fails at bootstrap. -/
def bootFailGenerate : GenerateWorld :=
  { happyGenerate with pipeline := bootFailPipeline }

/-- An infra sub-project whose package.json changed (stored hash differs)
while node_modules is materialized. -/
def changedInfraFs : FS :=
  { nodeModulesExists := true, packageJsonExists := true, packageJsonContent := "new-pkg",
    hashFileExists := true, hashFileContent := "old-hash" }

/-- An `npm install` that ran and exited non-zero. -/
def failedInstallExec : Except String ExecResult :=
  .ok { stdout := "", stderr := "install exploded", exitCode := 1 }

/-- A pipeline world in which the infra install is needed and fails. -/
def installFailPipeline : PipelineWorld :=
  { happyPipeline with infraFs := changedInfraFs, infraInstall := failedInstallExec }

/-- A destroy world whose manifest exists but records no deployment for any
environment; role assumption and the destroy subprocess succeed. -/
def noEntryDestroy : DestroyWorld :=
  { validation := .ok (), manifestFileExists := true, manifestRead := .ok baseManifest,
    tenant := .ok (), assumeRoleOutcome := .ok (), destroyExec := okExec }

/-!
Theorems. First a family of helper lemmas characterizing the pipeline trace,
then one theorem per claim of the specification check (with witnesses and
counterexamples as needed).
-/

/-- Membership in an if-then-else of lists implies membership in one branch. -/
theorem mem_ite_or {α : Type} {c : Prop} [Decidable c] {x : α} {a b : List α}
    (h : x ∈ if c then a else b) : x ∈ a ∨ x ∈ b := by
  by_cases hc : c
  · rw [if_pos hc] at h; exact .inl h
  · rw [if_neg hc] at h; exact .inr h

set_option maxHeartbeats 2000000 in
/-- The trace of a pipeline run in guard form: each stage's invocations and
status emissions appear exactly when every earlier stage passed, and the two
sub-projects' file systems end as `needsNpmInstall` left them. -/
theorem runPipeline_trace_eq (hash : String → String) (sn ip wp : String) (env : Environment)
    (w : PipelineWorld) :
    (runPipeline hash sn ip wp env w).2 =
      ⟨pipelineStatus hash w, pipelineInvs hash sn ip wp w, pipelineConfigWrites hash sn env w,
       fsAfterInfra hash w, fsAfterWeb hash w⟩ := by
  obtain ⟨aro, ifs, wfs, ii, wi, bs, wb, sy, dp, ore, s3⟩ := w
  simp only [runPipeline, pipelineStatus, pipelineInvs, pipelineConfigWrites, fsAfterInfra,
    fsAfterWeb, assumeOkB, installStageOkB, bootstrapStageOkB, buildSynthStageOkB,
    deployStageOkB, outputsReadOkB, s3OkB, extractedOuts, exceptOkB]
  repeat' split
  all_goals simp_all [bne_iff_ne]

/-- Claim C7: a bootstrap subprocess that exits non-zero but whose stdout or
stderr contains the already-bootstrapped pattern is treated as success and
the pipeline continues; every other non-zero exit of the bootstrap
subprocess is fatal, raising an error that carries the subprocess output. -/
theorem c7_bootstrap_already_bootstrapped (r : ExecResult) (hnz : r.exitCode ≠ 0) :
    ((strContains r.stderr "already bootstrapped" = true ∨
      strContains r.stdout "already bootstrapped" = true) →
      bootstrapCdk r = .ok () ∧
      ∀ w : PipelineWorld, w.bootstrap = .ok r → bootstrapStageOkB w = true) ∧
    (strContains r.stderr "already bootstrapped" = false →
      strContains r.stdout "already bootstrapped" = false →
      bootstrapCdk r = .error ("CDK bootstrap failed: " ++ jsOrStr r.stderr r.stdout) ∧
      ∀ w : PipelineWorld, w.bootstrap = .ok r → bootstrapStageOkB w = false) := by
  constructor
  · intro hpat
    have hok : bootstrapCdk r = .ok () := by
      unfold bootstrapCdk
      rcases hpat with h | h <;> simp [h, bne_iff_ne, hnz]
    exact ⟨hok, fun w hw => by simp [bootstrapStageOkB, hw, hok, exceptOkB]⟩
  · intro h1 h2
    have herr : bootstrapCdk r = .error ("CDK bootstrap failed: " ++ jsOrStr r.stderr r.stdout) := by
      unfold bootstrapCdk
      simp [h1, h2, bne_iff_ne, hnz]
    exact ⟨herr, fun w hw => by simp [bootstrapStageOkB, hw, herr, exceptOkB]⟩

/-- Witness for C7 at concrete subprocess results. -/
theorem c7_bootstrap_already_bootstrapped_witness :
    bootstrapCdk { stdout := "", stderr := "environment already bootstrapped", exitCode := 1 } =
      .ok () ∧
    bootstrapCdk { stdout := "", stderr := "boom", exitCode := 1 } =
      .error "CDK bootstrap failed: boom" := by
  constructor
  · exact ((c7_bootstrap_already_bootstrapped
      { stdout := "", stderr := "environment already bootstrapped", exitCode := 1 }
      (by decide)).1 (Or.inl (by decide))).1
  · simpa using ((c7_bootstrap_already_bootstrapped
      { stdout := "", stderr := "boom", exitCode := 1 }
      (by decide)).2 (by decide) (by decide)).1

/-- Claim C10: a child process whose close event delivers a null exit code
(for example a signal-terminated child, including the kill issued on
timeout) resolves with exitCode 0 — indistinguishable from a successful
zero exit for every caller that checks exitCode; only the separately
scheduled timeout rejection, when it wins the race, turns a timed-out wait
into a failure. -/
theorem c10_null_exit_code_resolves_zero (so se : String) (ms : Nat) :
    execCommandResolve so se (.close none) = .ok { stdout := so, stderr := se, exitCode := 0 } ∧
    execCommandResolve so se (.close none) = execCommandResolve so se (.close (some 0)) ∧
    execCommandResolve so se (.timedOut ms) =
      .error ("Command timed out after " ++ toString ms ++ "ms") :=
  ⟨rfl, rfl, rfl⟩

/-- Claim C9: `createJob` on an already-present jobId unconditionally
replaces the entry with a fresh in-progress one with an empty update log,
erasing the previous updates, result, error and any terminal state. -/
theorem c9_createJob_resets_entry (m : JobsMap) (id : String) :
    getStatus (createJob m id) id =
      some { jobId := id, status := .inProgress, updates := [], result := none, error := none } := by
  simp [getStatus, createJob, jmapSet]

/-- Counterexample to C1 as stated: a job that reached the terminal state
`failed` is flipped to `completed` by a later `completeJob` call, so a
terminal state does not make further calls no-ops. -/
theorem c1_terminal_overwritten_counterexample :
    getStatus (completeJob (failJob (createJob emptyJobs "job-1") "job-1" "boom") "job-1" "done")
        "job-1" ≠
      getStatus (failJob (createJob emptyJobs "job-1") "job-1" "boom") "job-1" ∧
    (getStatus (failJob (createJob emptyJobs "job-1") "job-1" "boom") "job-1").map
        JobStatus.status = some .failed ∧
    (getStatus (completeJob (failJob (createJob emptyJobs "job-1") "job-1" "boom") "job-1" "done")
        "job-1").map JobStatus.status = some .completed := by
  decide

/-- Claim C1 (amended): the tracker's mutators never consult the current
status — on a known jobId, `completeJob` and `failJob` always overwrite the
status and result/error (so a terminal state can be overwritten by a later
terminal call), and `addUpdate` always appends to the log; only calls naming
an unknown jobId leave the tracker unchanged. -/
theorem c1_tracker_mutators_unconditional (m : JobsMap) (id res err step msg : String)
    (c : Bool) (now : Nat) :
    (∀ j, m id = some j →
      getStatus (completeJob m id res) id =
        some { j with status := .completed, result := some res } ∧
      getStatus (failJob m id err) id = some { j with status := .failed, error := some err } ∧
      getStatus (addUpdate m id step msg c now) id =
        some { j with updates := j.updates ++
          [{ step := step, message := msg, timestamp := now, completed := c }] }) ∧
    (m id = none →
      completeJob m id res = m ∧ failJob m id err = m ∧ addUpdate m id step msg c now = m) := by
  constructor
  · intro j hj
    refine ⟨?_, ?_, ?_⟩ <;> simp [getStatus, completeJob, failJob, addUpdate, hj, jmapSet]
  · intro hn
    refine ⟨?_, ?_, ?_⟩ <;> simp [completeJob, failJob, addUpdate, hn]

/-- Witness for C1 (amended) at a concrete tracker state. -/
theorem c1_tracker_mutators_unconditional_witness :
    getStatus (completeJob (createJob emptyJobs "j") "j" "r") "j" =
      some { jobId := "j", status := .completed, updates := [], result := some "r",
             error := none } := by
  have h := (c1_tracker_mutators_unconditional (createJob emptyJobs "j") "j" "r" "e" "s" "m"
      false 0).1
      { jobId := "j", status := .inProgress, updates := [], result := none, error := none }
      (by decide)
  simpa using h.1

/-- Claim C6: a job made terminal at time `now` has its entry scheduled for
removal 3600000 ms (one hour) later — polling before the window elapses
still reads the terminal entry, while polling once the window has elapsed
reads not-found, distinguishable from a failed status. -/
theorem c6_terminal_retention_one_hour (s : TrackerState) (id res : String) (now t : Nat)
    (j : JobStatus) (hjob : s.jobs id = some j) (hfresh : ∀ p ∈ s.timers, p.1 ≠ id) :
    (t < now + 3600000 →
      (fireTimers (finishJobCompleted s id res now) t).jobs id =
        some { j with status := .completed, result := some res }) ∧
    (now + 3600000 ≤ t → (fireTimers (finishJobCompleted s id res now) t).jobs id = none) := by
  have hany : ∀ tt : Nat, s.timers.any (fun p => p.1 == id && decide (p.2 ≤ tt)) = false := by
    intro tt
    simp only [List.any_eq_false]
    intro p hp
    simp [hfresh p hp]
  constructor
  · intro hlt
    have hnle : ¬ (now + 3600000 ≤ t) := by omega
    simp [fireTimers, finishJobCompleted, cleanup, completeJob, hjob, jmapSet, hany, hnle]
  · intro hle
    simp [fireTimers, finishJobCompleted, cleanup, hany, hle]

/-- Witness for C6: one hour minus a millisecond is readable, one hour is
not found. -/
theorem c6_terminal_retention_one_hour_witness :
    (fireTimers (finishJobCompleted { jobs := createJob emptyJobs "j", timers := [] } "j" "r" 0)
        3599999).jobs "j" =
      some { jobId := "j", status := .completed, updates := [], result := some "r",
             error := none } ∧
    (fireTimers (finishJobCompleted { jobs := createJob emptyJobs "j", timers := [] } "j" "r" 0)
        3600000).jobs "j" = none := by
  constructor
  · have h := (c6_terminal_retention_one_hour ⟨createJob emptyJobs "j", []⟩ "j" "r" 0 3599999
      { jobId := "j", status := .inProgress, updates := [], result := none, error := none }
      (by decide) (by simp)).1 (by decide)
    simpa using h
  · exact (c6_terminal_retention_one_hour ⟨createJob emptyJobs "j", []⟩ "j" "r" 0 3600000
      { jobId := "j", status := .inProgress, updates := [], result := none, error := none }
      (by decide) (by simp)).2 (by decide)

/-- The trace of `deployCdkStack` is the trace of the underlying pipeline
run, whatever the outcome. -/
theorem deployCdkStack_trace (hash : String → String) (appId appName : String)
    (env : Environment) (w : PipelineWorld) :
    (deployCdkStack hash appId appName env w).2 =
      (runPipeline hash (mkStackName appName env) (infraPathOf appId) (webPathOf appId)
        env w).2 := by
  unfold deployCdkStack
  cases hrp : runPipeline hash (mkStackName appName env) (infraPathOf appId) (webPathOf appId)
      env w with
  | mk res tr => cases res <;> simp

/-- `deployCdkStack` reports failed exactly when the pipeline raised. -/
theorem deployCdkStack_failed_iff (hash : String → String) (appId appName : String)
    (env : Environment) (w : PipelineWorld) :
    (deployCdkStack hash appId appName env w).1.status = .failed ↔
      ∃ msg, (runPipeline hash (mkStackName appName env) (infraPathOf appId) (webPathOf appId)
        env w).1 = .error msg := by
  unfold deployCdkStack
  cases hrp : runPipeline hash (mkStackName appName env) (infraPathOf appId) (webPathOf appId)
      env w with
  | mk res tr => cases res <;> simp

/-- Elements of the install segment are the two `npm install` invocations. -/
theorem mem_installSegment {x : Invocation} {b1 b2 : Bool} {ip wp : String}
    (h : x ∈ installSegment b1 b2 ip wp) : x = npmInstallInv ip ∨ x = npmInstallInv wp := by
  unfold installSegment at h
  rcases List.mem_append.mp h with h | h <;> rcases mem_ite_or h with h | h <;> simp_all

/-- Every invocation a pipeline run launches is one of the six call sites. -/
theorem pipelineInvs_mem (hash : String → String) (sn ip wp : String) (w : PipelineWorld)
    (x : Invocation) (hx : x ∈ pipelineInvs hash sn ip wp w) :
    x = npmInstallInv ip ∨ x = npmInstallInv wp ∨ x = bootstrapInv ip ∨ x = npmBuildInv wp ∨
      x = synthInv sn ip ∨ x = cdkDeployInv sn ip := by
  unfold pipelineInvs at hx
  split at hx
  · rcases List.mem_append.mp hx with h | h
    · rcases mem_installSegment h with h | h
      · exact .inl h
      · exact .inr (.inl h)
    · split at h
      · rcases List.mem_cons.mp h with h | h
        · exact .inr (.inr (.inl h))
        · split at h
          · rcases List.mem_cons.mp h with h | h
            · exact .inr (.inr (.inr (.inl h)))
            · rcases List.mem_cons.mp h with h | h
              · exact .inr (.inr (.inr (.inr (.inl h))))
              · split at h
                · exact .inr (.inr (.inr (.inr (.inr (List.mem_singleton.mp h)))))
                · simp at h
          · simp at h
      · simp at h
  · simp at hx

/-- Every status emission of a pipeline run is one of the six fixed
messages. -/
theorem pipelineStatus_mem (hash : String → String) (w : PipelineWorld) (u : String × String)
    (hu : u ∈ pipelineStatus hash w) :
    u = suChecking ∨ u = suInstalling ∨ u = suBootstrap ∨ u = suBuild ∨ u = suDeploy ∨
      u = suConfig := by
  unfold pipelineStatus at hu
  split at hu
  · rcases List.mem_cons.mp hu with h | h
    · exact .inl h
    · rcases List.mem_append.mp h with h | h
      · unfold installingSegment at h
        rcases mem_ite_or h with h | h
        · exact .inr (.inl (List.mem_singleton.mp h))
        · simp at h
      · split at h
        · rcases List.mem_cons.mp h with h | h
          · exact .inr (.inr (.inl h))
          · split at h
            · rcases List.mem_cons.mp h with h | h
              · exact .inr (.inr (.inr (.inl h)))
              · split at h
                · rcases List.mem_cons.mp h with h | h
                  · exact .inr (.inr (.inr (.inr (.inl h))))
                  · split at h
                    · exact .inr (.inr (.inr (.inr (.inr (List.mem_singleton.mp h)))))
                    · simp at h
                · simp at h
            · simp at h
        · simp at h
  · simp at hu

/-- The deploy subprocess is launched only when the install, bootstrap and
build+synthesize stages all passed. -/
theorem cdkDeployInv_mem_stages (hash : String → String) (sn ip wp : String) (w : PipelineWorld)
    (hmem : cdkDeployInv sn ip ∈ pipelineInvs hash sn ip wp w) :
    installStageOkB hash w = true ∧ bootstrapStageOkB w = true ∧
      buildSynthStageOkB w = true := by
  unfold pipelineInvs at hmem
  split at hmem
  · rcases List.mem_append.mp hmem with h | h
    · rcases mem_installSegment h with h | h <;>
        simp [cdkDeployInv, execCdkInv, npmInstallInv] at h
    · split at h
      · rcases List.mem_cons.mp h with h | h
        · simp [cdkDeployInv, execCdkInv, bootstrapInv] at h
        · split at h
          · rcases List.mem_cons.mp h with h | h
            · simp [cdkDeployInv, execCdkInv, npmBuildInv] at h
            · rcases List.mem_cons.mp h with h | h
              · simp [cdkDeployInv, execCdkInv, synthInv] at h
              · split at h
                · exact ⟨by assumption, by assumption, by assumption⟩
                · simp at h
          · simp at h
      · simp at h
  · simp at hmem

/-- A runtime-config upload happens only when every stage up to and
including the outputs read passed. -/
theorem configWrites_ne_nil_stages (hash : String → String) (sn : String) (env : Environment)
    (w : PipelineWorld) (h : pipelineConfigWrites hash sn env w ≠ []) :
    buildSynthStageOkB w = true ∧ deployStageOkB w = true ∧ outputsReadOkB w = true := by
  unfold pipelineConfigWrites at h
  split at h
  · next hC =>
    simp only [Bool.and_eq_true] at hC
    exact ⟨hC.1.1.1.1.2, hC.1.1.1.2, hC.1.1.2⟩
  · simp at h

/-- Claim C3: when any pipeline stage fails, `deployCdkStack` returns a
DeploymentResult with status failed carrying the error message and empty
outputs; later stages are skipped (the deploy subprocess is launched only
when install, bootstrap and build+synthesize all passed, and a config upload
happens only when deploy and the outputs read also passed); and the
`/api/generate` handler leaves the persisted manifest unwritten on a failed
run — the dev entry and updatedAt are written only when the run's status is
success. -/
theorem c3_failure_shortcircuits_manifest_unchanged (hash : String → String)
    (appId appName now : String) (gw : GenerateWorld) :
    (∀ msg,
      (runPipeline hash (mkStackName (sanitizeAppName appName) .dev) (infraPathOf appId)
          (webPathOf appId) .dev gw.pipeline).1 = .error msg →
      (deployCdkStack hash appId (sanitizeAppName appName) .dev gw.pipeline).1.status =
        .failed ∧
      (deployCdkStack hash appId (sanitizeAppName appName) .dev gw.pipeline).1.error =
        some msg ∧
      (deployCdkStack hash appId (sanitizeAppName appName) .dev gw.pipeline).1.outputs =
        emptyOutputs) ∧
    (cdkDeployInv (mkStackName (sanitizeAppName appName) .dev) (infraPathOf appId) ∈
        (deployCdkStack hash appId (sanitizeAppName appName) .dev gw.pipeline).2.invocations →
      installStageOkB hash gw.pipeline = true ∧ bootstrapStageOkB gw.pipeline = true ∧
      buildSynthStageOkB gw.pipeline = true) ∧
    ((deployCdkStack hash appId (sanitizeAppName appName) .dev gw.pipeline).2.configWrites ≠
        [] →
      buildSynthStageOkB gw.pipeline = true ∧ deployStageOkB gw.pipeline = true ∧
      outputsReadOkB gw.pipeline = true) ∧
    ((deployCdkStack hash appId (sanitizeAppName appName) .dev gw.pipeline).1.status =
        .failed →
      (generateHandler hash appId appName now gw).2 = none) ∧
    (∀ m1, (generateHandler hash appId appName now gw).2 = some m1 →
      (deployCdkStack hash appId (sanitizeAppName appName) .dev gw.pipeline).1.status =
        .success ∧
      m1.deployments.dev =
        some (deployCdkStack hash appId (sanitizeAppName appName) .dev gw.pipeline).1 ∧
      m1.updatedAt = now) := by
  refine ⟨?_, ?_, ?_, ?_, ?_⟩
  · intro msg h
    unfold deployCdkStack
    cases hrp : runPipeline hash (mkStackName (sanitizeAppName appName) .dev)
        (infraPathOf appId) (webPathOf appId) .dev gw.pipeline with
    | mk res tr =>
      rw [hrp] at h
      cases res with
      | error e =>
        simp only [Except.error.injEq] at h
        subst h
        simp
      | ok outs => simp at h
  · intro hmem
    rw [deployCdkStack_trace, runPipeline_trace_eq] at hmem
    exact cdkDeployInv_mem_stages hash (mkStackName (sanitizeAppName appName) .dev)
      (infraPathOf appId) (webPathOf appId) gw.pipeline hmem
  · intro hne
    rw [deployCdkStack_trace, runPipeline_trace_eq] at hne
    exact configWrites_ne_nil_stages hash (mkStackName (sanitizeAppName appName) .dev) .dev
      gw.pipeline hne
  · intro hfail
    obtain ⟨v, tn, ar, sg, rd, pw, mr⟩ := gw
    simp only [generateHandler]
    cases v with
    | error e => simp
    | ok u1 =>
    cases tn with
    | error e => simp
    | ok u2 =>
    cases ar with
    | error e => simp
    | ok u3 =>
    cases sg with
    | error e => simp
    | ok spec =>
    cases rd with
    | error e => simp
    | ok u4 =>
    cases hdp : deployCdkStack hash appId (sanitizeAppName appName) .dev pw with
    | mk dep tr =>
      rw [hdp] at hfail
      simp only at hfail
      simp [hfail]
  · intro m1 hm1
    obtain ⟨v, tn, ar, sg, rd, pw, mr⟩ := gw
    simp only [generateHandler] at hm1 ⊢
    cases v with
    | error e => simp at hm1
    | ok u1 =>
    cases tn with
    | error e => simp at hm1
    | ok u2 =>
    cases ar with
    | error e => simp at hm1
    | ok u3 =>
    cases sg with
    | error e => simp at hm1
    | ok spec =>
    cases rd with
    | error e => simp at hm1
    | ok u4 =>
    cases hdp : deployCdkStack hash appId (sanitizeAppName appName) .dev pw with
    | mk dep tr =>
      rw [hdp] at hm1
      simp only at hm1
      by_cases hst : dep.status = .failed
      · rw [if_pos hst] at hm1
        simp at hm1
      · rw [if_neg hst] at hm1
        cases mr with
        | error e => simp at hm1
        | ok m =>
          simp only [Option.some.injEq] at hm1
          subst hm1
          refine ⟨?_, by simp, by simp⟩
          cases hds : dep.status with
          | success => rfl
          | failed => exact absurd hds hst

/-- Witness for C3: a bootstrap failure yields a failed deployment and no
manifest write. -/
theorem c3_failure_shortcircuits_manifest_unchanged_witness :
    (deployCdkStack idHash "app-1" "my-app" .dev bootFailPipeline).1.status = .failed ∧
    (generateHandler idHash "app-1" "my-app" "t1" bootFailGenerate).2 = none := by
  have hfail : (deployCdkStack idHash "app-1" (sanitizeAppName "my-app") .dev
      bootFailGenerate.pipeline).1.status = .failed := by decide
  have h := (c3_failure_shortcircuits_manifest_unchanged idHash "app-1" "my-app" "t1"
      bootFailGenerate).2.2.2.1 hfail
  exact ⟨by decide, h⟩

/-- When both sub-projects skip, no launched invocation is an installer. -/
theorem npmInstall_not_mem_of_skip (hash : String → String) (sn ip wp : String)
    (w : PipelineWorld) (hni : (needsNpmInstall hash w.infraFs).1 = false)
    (hnw : (needsNpmInstall hash w.webFs).1 = false) (x : Invocation)
    (hx : x ∈ pipelineInvs hash sn ip wp w) : x.args ≠ ["install"] := by
  unfold pipelineInvs installSegment at hx
  rw [hni, hnw] at hx
  simp only [Bool.false_eq_true, if_false, List.append_nil, List.nil_append] at hx
  split at hx
  · split at hx
    · rcases List.mem_cons.mp hx with h | h
      · subst h; simp [bootstrapInv, execCdkInv]
      · split at h
        · rcases List.mem_cons.mp h with h | h
          · subst h; simp [npmBuildInv]
          · rcases List.mem_cons.mp h with h | h
            · subst h; simp [synthInv, execCdkInv]
            · split at h
              · rw [List.mem_singleton.mp h]; simp [cdkDeployInv, execCdkInv]
              · simp at h
        · simp at h
    · simp at hx
  · simp at hx

/-- Counterexample to C4 as stated: with node_modules present and a changed
package.json, the new hash is persisted by the hash check itself, before the
installer runs — so after a failed install the stored hash already equals
the current content hash; and on the unchanged-hash path no status update
ever mentions a skip. -/
theorem c4_hash_persisted_before_install_counterexample :
    (runPipeline idHash "my-app-Dev" "/work/app-1/infra" "/work/app-1/web" .dev
        installFailPipeline).1 = .error "Infra npm install failed: install exploded" ∧
    (runPipeline idHash "my-app-Dev" "/work/app-1/infra" "/work/app-1/web" .dev
        installFailPipeline).2.infraFsAfter.hashFileContent = "new-pkg" ∧
    idHash changedInfraFs.packageJsonContent = "new-pkg" ∧
    changedInfraFs.hashFileContent = "old-hash" ∧
    (∀ u ∈ (runPipeline idHash "my-app-Dev" "/work/app-1/infra" "/work/app-1/web" .dev
        happyPipeline).2.statusUpdates, strContains u.2 "skip" = false) := by
  refine ⟨by decide, by decide, by decide, by decide, by decide⟩

/-- Claim C4 (amended): per sub-project, installation is skipped exactly
when node_modules is materialized, package.json exists and the stored hash
(trimmed) equals the current content hash — and no explicit skipped status
update is emitted (no status message ever mentions a skip; the skip is only
console-logged); when the check decides an install is needed while
node_modules is present, the new hash is persisted at check time, before the
installer runs, so even a failed install leaves the new hash stored; the
installer subprocesses, when launched, carry the 5-minute timeout, and when
both sub-projects skip no installer subprocess is launched at all. -/
theorem c4_dependency_cache_behaviour (hash : String → String) (fs : FS) (sn ip wp : String)
    (env : Environment) (w : PipelineWorld) :
    (fs.nodeModulesExists = true → fs.packageJsonExists = true → fs.hashFileExists = true →
      strTrim fs.hashFileContent = hash fs.packageJsonContent →
      needsNpmInstall hash fs = (false, fs)) ∧
    (fs.nodeModulesExists = true → fs.packageJsonExists = true →
      (fs.hashFileExists && (strTrim fs.hashFileContent == hash fs.packageJsonContent)) =
        false →
      needsNpmInstall hash fs =
        (true, { fs with hashFileExists := true, hashFileContent := hash fs.packageJsonContent })) ∧
    (assumeOkB w = true →
      (runPipeline hash sn ip wp env w).2.infraFsAfter = (needsNpmInstall hash w.infraFs).2 ∧
      (runPipeline hash sn ip wp env w).2.webFsAfter = (needsNpmInstall hash w.webFs).2) ∧
    (∀ inv ∈ (runPipeline hash sn ip wp env w).2.invocations,
      inv.args = ["install"] → inv.timeout = some 300000) ∧
    ((needsNpmInstall hash w.infraFs).1 = false → (needsNpmInstall hash w.webFs).1 = false →
      ∀ inv ∈ (runPipeline hash sn ip wp env w).2.invocations, inv.args ≠ ["install"]) ∧
    (∀ u ∈ (runPipeline hash sn ip wp env w).2.statusUpdates,
      strContains u.2 "skip" = false) := by
  refine ⟨?_, ?_, ?_, ?_, ?_, ?_⟩
  · intro h1 h2 h3 h4
    simp [needsNpmInstall, h1, h2, h3, h4]
  · intro h1 h2 h3
    simp [needsNpmInstall, h1, h2, h3]
  · intro hA
    rw [runPipeline_trace_eq]
    exact ⟨by simp [fsAfterInfra, hA], by simp [fsAfterWeb, hA]⟩
  · intro inv hinv harg
    rw [runPipeline_trace_eq] at hinv
    rcases pipelineInvs_mem hash sn ip wp w inv hinv with h | h | h | h | h | h <;> subst h
    · rfl
    · rfl
    · simp [bootstrapInv, execCdkInv] at harg
    · simp [npmBuildInv] at harg
    · simp [synthInv, execCdkInv] at harg
    · simp [cdkDeployInv, execCdkInv] at harg
  · intro hni hnw inv hinv
    rw [runPipeline_trace_eq] at hinv
    exact npmInstall_not_mem_of_skip hash sn ip wp w hni hnw inv hinv
  · intro u hu
    rw [runPipeline_trace_eq] at hu
    rcases pipelineStatus_mem hash w u hu with h | h | h | h | h | h <;> subst h <;> decide

/-- Witness for C4 (amended) at concrete file systems. -/
theorem c4_dependency_cache_behaviour_witness :
    needsNpmInstall idHash fsUnchanged = (false, fsUnchanged) ∧
    needsNpmInstall idHash changedInfraFs =
      (true, { changedInfraFs with hashFileExists := true, hashFileContent := "new-pkg" }) := by
  have h := c4_dependency_cache_behaviour idHash fsUnchanged "sn" "ip" "wp" .dev happyPipeline
  have h2 := c4_dependency_cache_behaviour idHash changedInfraFs "sn" "ip" "wp" .dev
    happyPipeline
  refine ⟨h.1 rfl rfl rfl (by decide), ?_⟩
  have h3 := h2.2.1 rfl rfl (by decide)
  simpa using h3

/-- Counterexample to C5 as stated: a destroy request for an environment
with no deployment entry in an existing manifest still spawns the teardown
subprocess (and reports success), instead of failing cleanly without any
subprocess. -/
theorem c5_destroy_spawns_without_entry_counterexample :
    baseManifest.deployments.dev = none ∧
    (destroyHandler .dev "app-1" "t1" noEntryDestroy).2.1 ≠ [] ∧
    cdkDestroyInv "my-app-Dev" "/work/app-1/infra" ∈
      (destroyHandler .dev "app-1" "t1" noEntryDestroy).2.1 ∧
    (destroyHandler .dev "app-1" "t1" noEntryDestroy).1 =
      .ok "dev stack destroyed successfully" := by
  refine ⟨rfl, by decide, by decide, by decide⟩

/-- Claim C5 (amended): only a missing manifest file makes destroy fail
cleanly without any subprocess (the 'App not found' path); when the manifest
file exists — whether or not it has a deployment entry for the requested
environment — the handler proceeds, and once the role assumption holds it
spawns the `cdk destroy` subprocess. -/
theorem c5_destroy_manifest_check (env : Environment) (appId now : String) (w : DestroyWorld)
    (hv : w.validation = .ok ()) :
    (w.manifestFileExists = false →
      destroyHandler env appId now w = (.error "App not found", [], none)) ∧
    (∀ m, w.manifestFileExists = true → w.manifestRead = .ok m → w.tenant = .ok () →
      w.assumeRoleOutcome = .ok () →
      cdkDestroyInv (mkStackName (sanitizeAppName m.appName) env) (infraPathOf appId) ∈
        (destroyHandler env appId now w).2.1) := by
  constructor
  · intro hex
    simp [destroyHandler, hv, hex]
  · intro m hex hm ht ha
    simp only [destroyHandler, hv, hex, hm, ht]
    unfold destroyCdkStack
    rw [ha]
    cases hde : w.destroyExec with
    | error e => simp
    | ok r =>
      by_cases hr : r.exitCode = 0 <;> simp [hr, bne_iff_ne]

/-- Witness for C5 (amended): the missing-file path and the
no-entry-still-spawns path at concrete inputs. -/
theorem c5_destroy_manifest_check_witness :
    destroyHandler .dev "app-1" "t1" { noEntryDestroy with manifestFileExists := false } =
      (.error "App not found", [], none) ∧
    cdkDestroyInv "my-app-Dev" "/work/app-1/infra" ∈
      (destroyHandler .dev "app-1" "t1" noEntryDestroy).2.1 := by
  constructor
  · exact (c5_destroy_manifest_check .dev "app-1" "t1"
      { noEntryDestroy with manifestFileExists := false } rfl).1 rfl
  · exact (c5_destroy_manifest_check .dev "app-1" "t1" noEntryDestroy rfl).2
      baseManifest rfl rfl rfl rfl

/-- Counterexample to C8 as stated: when the build+synthesize stage is
reached, the synthesis subprocess is invoked with the 10-minute `execCdk`
default timeout, not a 5-minute timeout. -/
theorem c8_synth_timeout_counterexample :
    synthInv "my-app-Dev" "/work/app-1/infra" ∈
      (runPipeline idHash "my-app-Dev" "/work/app-1/infra" "/work/app-1/web" .dev
        happyPipeline).2.invocations ∧
    (synthInv "my-app-Dev" "/work/app-1/infra").timeout = some 600000 ∧
    (synthInv "my-app-Dev" "/work/app-1/infra").timeout ≠ some 300000 := by
  refine ⟨by decide, by decide, by decide⟩

/-- Claim C8 (amended): once the build+synthesize stage is reached, the
front-end build and the template synthesis are launched together — both
invocations are recorded regardless of either's outcome — the build with a
5-minute timeout but the synthesis with the wrapper's 10-minute default (no
explicit timeout at its call site); the deploy subprocess is then launched
exactly when both exited zero, so the stage succeeds only if both do. -/
theorem c8_build_synth_stage (hash : String → String) (sn ip wp : String) (env : Environment)
    (w : PipelineWorld) (hA : assumeOkB w = true) (hi : installStageOkB hash w = true)
    (hb : bootstrapStageOkB w = true) :
    npmBuildInv wp ∈ (runPipeline hash sn ip wp env w).2.invocations ∧
    synthInv sn ip ∈ (runPipeline hash sn ip wp env w).2.invocations ∧
    (npmBuildInv wp).timeout = some 300000 ∧
    (synthInv sn ip).timeout = some 600000 ∧
    (cdkDeployInv sn ip ∈ (runPipeline hash sn ip wp env w).2.invocations ↔
      buildSynthStageOkB w = true) := by
  have hinv : (runPipeline hash sn ip wp env w).2.invocations =
      installSegment (needsNpmInstall hash w.infraFs).1 (needsNpmInstall hash w.webFs).1
          ip wp ++
      (bootstrapInv ip :: npmBuildInv wp :: synthInv sn ip ::
        (if buildSynthStageOkB w = true then [cdkDeployInv sn ip] else [])) := by
    rw [runPipeline_trace_eq]
    simp [pipelineInvs, hA, hi, hb]
  refine ⟨by rw [hinv]; simp, by rw [hinv]; simp, rfl, rfl, ?_⟩
  rw [hinv]
  constructor
  · intro hm
    rcases List.mem_append.mp hm with h | h
    · rcases mem_installSegment h with h | h <;>
        simp [cdkDeployInv, execCdkInv, npmInstallInv] at h
    · rcases List.mem_cons.mp h with h | h
      · simp [cdkDeployInv, execCdkInv, bootstrapInv] at h
      · rcases List.mem_cons.mp h with h | h
        · simp [cdkDeployInv, execCdkInv, npmBuildInv] at h
        · rcases List.mem_cons.mp h with h | h
          · simp [cdkDeployInv, execCdkInv, synthInv] at h
          · split at h
            · assumption
            · simp at h
  · intro hbs
    simp [hbs, List.mem_append]

/-- Witness for C8 (amended) on a concrete successful run. -/
theorem c8_build_synth_stage_witness :
    npmBuildInv "/work/app-1/web" ∈
      (runPipeline idHash "my-app-Dev" "/work/app-1/infra" "/work/app-1/web" .dev
        happyPipeline).2.invocations ∧
    (synthInv "my-app-Dev" "/work/app-1/infra").timeout = some 600000 := by
  have h := c8_build_synth_stage idHash "my-app-Dev" "/work/app-1/infra" "/work/app-1/web"
      .dev happyPipeline (by decide) (by decide) (by decide)
  exact ⟨h.1, h.2.2.2.1⟩

/-- Claim C2 (code-bug evidence): the registered route table serves no
generate-status endpoint, and on a fully successful request the synchronous
`/api/generate` handler responds with the deployment result itself — preview
URL, stack name and raw stack outputs — rather than a job id, writing the
manifest in the same request. The repository's own UI destructures a
`jobId` from this response and polls a `generate-status` route that no
handler serves, and the StatusTracker module has no caller. -/
theorem c2_generate_synchronous_no_status_route :
    controlRoutes.all (fun r => !(strContains r.2 "generate-status")) = true ∧
    (generateHandler idHash "app-1" "my-app" "t1" happyGenerate).1.map
        (fun resp => (resp.previewUrl, resp.stackName, resp.outputs)) =
      .ok ("https://preview.example", "my-app-Dev", goodOutputs) ∧
    ((generateHandler idHash "app-1" "my-app" "t1" happyGenerate).2).isSome = true := by
  refine ⟨by decide, by decide, by decide⟩
